import Mathlib

/-!
Verification development for the TEST_REST_API contacts-management backend.

We shallowly embed the authentication / credential-lifecycle subsystem
(`src/routes/auth.py`, `src/repository/users.py`) and the per-account
contact repository (`src/repository/contacts.py`, `src/entity/models.py`).

The database is modelled as an in-memory list of rows; each route handler is
a pure function from its inputs and the current database to a result
(`Except AuthError α`) paired with the updated database.  Python `None`
dereferences (attribute access on a missing row) are modelled by the
distinguished error `AuthError.noneDereference`, since they abort the
handler rather than produce one of its declared responses.

The token codec and password hasher live in `src/services/auth.py`, which is
not part of the sources at hand; those two pieces are modelled from the
specification (marked `Modelled from the spec:` below).  Everything else is
translated directly from the Python sources.
-/

namespace RestApi

/-- Purpose tag carried by a signed token (access | refresh | email-verification). -/
inductive Purpose
  | access
  | refresh
  | emailVerification
  deriving DecidableEq, Repr

/-- Modelled from the spec: `src/services/auth.py` (the Token Codec) is not in
the sources; per the spec a token is "a signed structure carrying
`{subject, purpose, issued_at, expires_at}`".  A `Token` value stands for a
validly signed token string; two tokens are equal exactly when their encoded
strings are (the encoding is injective).  Forged strings that do not verify
are outside the model: every `Token` value has a valid signature. -/
structure Token where
  subject : String
  purpose : Purpose
  issuedAt : Nat
  expiresAt : Nat
  deriving DecidableEq, Repr

/-- Modelled from the spec: `encode(subject, purpose, ttl)` produces a signed
token embedding subject, purpose, issued-at, and expiry = issued-at + ttl. -/
def encode (subject : String) (purpose : Purpose) (now ttl : Nat) : Token :=
  { subject := subject, purpose := purpose, issuedAt := now, expiresAt := now + ttl }

/-- The two decode failure kinds distinguished by the spec. -/
inductive DecodeError
  | invalidToken
  | expiredToken
  deriving DecidableEq, Repr

/-- Modelled from the spec: `decode(token_string, expected_purpose)` fails with
`InvalidToken` on purpose mismatch (signature failure cannot arise for a
well-formed `Token` value) and with `ExpiredToken` when the current time is
at or past expiry; otherwise it returns the subject. -/
def decode (t : Token) (expected : Purpose) (now : Nat) : Except DecodeError String :=
  if t.purpose ≠ expected then Except.error DecodeError.invalidToken
  else if t.expiresAt ≤ now then Except.error DecodeError.expiredToken
  else Except.ok t.subject

/-- Modelled from the spec: the Credential Hasher's `hash` (a one-way digest;
the salt is irrelevant to the control flow verified here, so the model is the
deterministic injective digest below). -/
def get_password_hash (plaintext : String) : String :=
  String.append "$argon2$" plaintext

/-- Modelled from the spec: `verify(plaintext, digest)`, true exactly when the
digest is the hash of the plaintext. -/
def verify_password (plaintext digest : String) : Bool :=
  digest == get_password_hash plaintext

/-- The `users` table row (`src/entity/models.py`, class `User`): id, username,
unique email, password hash, optional avatar, optional current refresh token,
confirmed flag defaulting to false.  Timestamps are omitted (no claim touches
them). -/
structure User where
  id : Nat
  username : String
  email : String
  password : String
  avatar : Option String := none
  refresh_token : Option Token := none
  confirmed : Bool := false
  deriving DecidableEq, Repr

/-- The `contacts` table row (`src/entity/models.py`, class `Contact`); the
`user` relationship is modelled by the `user_id` foreign key, and the date
column by a `Nat`. -/
structure Contact where
  id : Nat
  first_name : String
  last_name : String
  email : String
  phone_number : String
  birthday : Nat
  extra_data : Option String := none
  user_id : Nat
  deriving DecidableEq, Repr

/-- Modelled from the spec: the pydantic `UserSchema` request body of signup
(`signup(email, username, password)`); `src/schemas/user.py` is not in the
sources. -/
structure UserSchema where
  username : String
  email : String
  password : String
  deriving DecidableEq, Repr

/-- The `ContactSchema` request body (`src/schemas/contact.py`). -/
structure ContactSchema where
  first_name : String
  last_name : String
  email : String
  phone_number : String
  birthday : Nat
  extra_data : Option String := none
  deriving DecidableEq, Repr

/-- The token pair returned by login and refresh. -/
structure TokenPair where
  access_token : Token
  refresh_token : Token
  deriving DecidableEq, Repr

/-- How a handler terminates abnormally: `http s d` models
`raise HTTPException(status_code=s, detail=d)`; `noneDereference a` models a
Python `AttributeError` from reading attribute `a` on `None`. -/
inductive AuthError
  | http (statusCode : Nat) (detail : String)
  | noneDereference (attr : String)
  deriving DecidableEq, Repr

/-- Modelled from the spec: access tokens have a short, process-wide configured
TTL; the concrete number is configuration, not behaviour. -/
def access_ttl : Nat := 15

/-- Modelled from the spec: refresh tokens have a long, process-wide configured
TTL, distinct from the access TTL. -/
def refresh_ttl : Nat := 10080

/-- `auth_service.create_access_token(data={"sub": email})`: modelled from the
spec as encoding the subject with purpose access and the access TTL. -/
def create_access_token (email : String) (now : Nat) : Token :=
  encode email Purpose.access now access_ttl

/-- `auth_service.create_refresh_token(data={"sub": email})`: modelled from the
spec as encoding the subject with purpose refresh and the refresh TTL. -/
def create_refresh_token (email : String) (now : Nat) : Token :=
  encode email Purpose.refresh now refresh_ttl

/-- Modelled from the spec: `auth_service.decode_refresh_token` decodes with
purpose refresh; both decode failure kinds surface as a generic 401. -/
def decode_refresh_token (t : Token) (now : Nat) : Except AuthError String :=
  match decode t Purpose.refresh now with
  | Except.ok email => Except.ok email
  | Except.error _ => Except.error (AuthError.http 401 "Could not validate credentials")

/-- Modelled from the spec: `auth_service.get_email_from_token` decodes with
the email-verification purpose; failures surface as a 422 bad-token error. -/
def get_email_from_token (t : Token) (now : Nat) : Except AuthError String :=
  match decode t Purpose.emailVerification now with
  | Except.ok email => Except.ok email
  | Except.error _ => Except.error (AuthError.http 422 "Invalid token for email verification")

/-- External collaborator: the libgravatar lookup in
`repository/users.create_user` (network call wrapped in try/except, result
`None` on failure); its value never influences a claim. -/
def gravatar_image (_email : String) : Option String := none

namespace Repo

/-- `repository/users.get_user_by_email`: `select(User).filter_by(email=email)`
then `scalar_one_or_none()` — the first user row with that email, if any. -/
def get_user_by_email (email : String) (db : List User) : Option User :=
  db.find? (fun u => u.email == email)

/-- `repository/users.create_user`: builds a `User` from the schema fields plus
the gravatar avatar, inserts and commits; `id` is the autoincrement primary
key, `refresh_token` and `confirmed` take their column defaults. -/
def create_user (body : UserSchema) (db : List User) : User × List User :=
  let new_user : User :=
    { id := db.length + 1
      username := body.username
      email := body.email
      password := body.password
      avatar := gravatar_image body.email
      refresh_token := none
      confirmed := false }
  (new_user, db ++ [new_user])

/-- `repository/users.update_token`: sets `user.refresh_token = token` on the
fetched ORM object (the row with that primary key) and commits. -/
def update_token (user : User) (token : Option Token) (db : List User) : List User :=
  db.map (fun u => if u.id == user.id then { u with refresh_token := token } else u)

/-- `repository/users.confirmed_email`: fetches the user by email and sets
`confirmed = True` on that row.  The route only calls this after checking the
user exists; the unreachable missing-row case leaves the database unchanged. -/
def confirmed_email (email : String) (db : List User) : List User :=
  match get_user_by_email email db with
  | none => db
  | some u => db.map (fun x => if x.id == u.id then { x with confirmed := true } else x)

/-- `repository/users.change_password`: sets `user.password = password` on the
fetched ORM object (the row with that primary key) and commits. -/
def change_password (user : User) (password : String) (db : List User) : List User :=
  db.map (fun u => if u.id == user.id then { u with password := password } else u)

/-- Containment of one character list inside another, for the `ilike` model. -/
def containsSub (s p : List Char) : Bool :=
  match s with
  | [] => p.isEmpty
  | _ :: t => p.isPrefixOf s || containsSub t p

/-- The `ilike '%pattern%'` operator used by `search_contacts`: case-insensitive
substring containment. -/
def ilike (s pattern : String) : Bool :=
  containsSub (s.toLower.toList) (pattern.toLower.toList)

/-- `repository/contacts.get_contacts`:
`select(Contact).filter_by(user=user).offset(offset).limit(limit)`. -/
def get_contacts (limit offset : Nat) (db : List Contact) (user : User) : List Contact :=
  (((db.filter (fun c => c.user_id == user.id)).drop offset).take limit)

/-- `repository/contacts.get_contact`:
`select(Contact).filter_by(id=contact_id, user=user)` then
`scalar_one_or_none()`; returns the contact if found, else `None`. -/
def get_contact (contact_id : Nat) (db : List Contact) (user : User) : Option Contact :=
  db.find? (fun c => c.id == contact_id && c.user_id == user.id)

/-- `repository/contacts.create_contact`: builds a `Contact` owned by `user`
from the schema fields, inserts and commits. -/
def create_contact (body : ContactSchema) (db : List Contact) (user : User) :
    Contact × List Contact :=
  let contact : Contact :=
    { id := db.length + 1
      first_name := body.first_name
      last_name := body.last_name
      email := body.email
      phone_number := body.phone_number
      birthday := body.birthday
      extra_data := body.extra_data
      user_id := user.id }
  (contact, db ++ [contact])

/-- `repository/contacts.update_contact`: fetches by `(id, user)`; if found,
overwrites the six body fields on that row and commits, returning the
contact; otherwise returns `None` with the database untouched. -/
def update_contact (body : ContactSchema) (contact_id : Nat) (db : List Contact)
    (user : User) : Option Contact × List Contact :=
  match db.find? (fun c => c.id == contact_id && c.user_id == user.id) with
  | none => (none, db)
  | some c =>
    let c2 : Contact :=
      { c with
        first_name := body.first_name
        last_name := body.last_name
        email := body.email
        phone_number := body.phone_number
        birthday := body.birthday
        extra_data := body.extra_data }
    (some c2, db.map (fun x => if x.id == c.id && x.user_id == user.id then c2 else x))

/-- `repository/contacts.delete_contact`: fetches by `(id, user)`; if found,
deletes that row and returns it, else returns `None`. -/
def delete_contact (contact_id : Nat) (db : List Contact) (user : User) :
    Option Contact × List Contact :=
  match db.find? (fun c => c.id == contact_id && c.user_id == user.id) with
  | none => (none, db)
  | some c => (some c, db.filter (fun x => !(x.id == c.id && x.user_id == user.id)))

/-- `repository/contacts.search_contacts`: each non-empty argument overwrites
`stmt` with a filter conjoining an `ilike` match on that column with
`Contact.user == user`; when all three are empty, `stmt` stays `None` and
`db.execute(None)` aborts, modelled as the `none` result. -/
def search_contacts (first_name last_name email : String) (db : List Contact)
    (user : User) : Option (List Contact) :=
  let stmt : Option (Contact → Bool) := none
  let stmt := if first_name ≠ "" then
    some (fun c => ilike c.first_name first_name && c.user_id == user.id) else stmt
  let stmt := if last_name ≠ "" then
    some (fun c => ilike c.last_name last_name && c.user_id == user.id) else stmt
  let stmt := if email ≠ "" then
    some (fun c => ilike c.email email && c.user_id == user.id) else stmt
  match stmt with
  | none => none
  | some p => some (db.filter p)

end Repo

namespace Routes

/-- `routes/auth.signup` (POST /auth/signup): 409 Conflict when the email is
already registered; otherwise hashes the password, creates the user (201) and
schedules the confirmation email (a background task with no database
effect). -/
def signup (body : UserSchema) (db : List User) : Except AuthError User × List User :=
  match Repo.get_user_by_email body.email db with
  | some _ => (Except.error (AuthError.http 409 "Account already exists"), db)
  | none =>
    let hashed := get_password_hash body.password
    let created := Repo.create_user { body with password := hashed } db
    (Except.ok created.1, created.2)

/-- `routes/auth.login` (POST /auth/login): 401 when the user is absent, not
confirmed, or the password fails verification; otherwise mints an
access+refresh pair, persists the refresh token and returns the pair. -/
def login (username password : String) (now : Nat) (db : List User) :
    Except AuthError TokenPair × List User :=
  match Repo.get_user_by_email username db with
  | none => (Except.error (AuthError.http 401 "No such user"), db)
  | some user =>
    if !user.confirmed then
      (Except.error (AuthError.http 401 "Email not confirmed"), db)
    else if !verify_password password user.password then
      (Except.error (AuthError.http 401 "Incorrect credentials"), db)
    else
      let access := create_access_token user.email now
      let refresh := create_refresh_token user.email now
      (Except.ok { access_token := access, refresh_token := refresh },
        Repo.update_token user (some refresh) db)

/-- `routes/auth.refresh_token` (GET /auth/refresh_token): decodes the bearer
token with purpose refresh, fetches the user by the decoded email and reads
`user.refresh_token` with no `None` guard (a missing user aborts with an
attribute error on `None`); on a stored-token mismatch clears the stored
token and raises 401; on a match mints and stores a fresh pair. -/
def refresh_route (token : Token) (now : Nat) (db : List User) :
    Except AuthError TokenPair × List User :=
  match decode_refresh_token token now with
  | Except.error e => (Except.error e, db)
  | Except.ok email =>
    match Repo.get_user_by_email email db with
    | none => (Except.error (AuthError.noneDereference "refresh_token"), db)
    | some user =>
      if user.refresh_token ≠ some token then
        (Except.error (AuthError.http 401 "Invalid refresh token"),
          Repo.update_token user none db)
      else
        let access := create_access_token email now
        let refresh := create_refresh_token email now
        (Except.ok { access_token := access, refresh_token := refresh },
          Repo.update_token user (some refresh) db)

/-- `routes/auth.confirmed_email` (GET /auth/confirmed_email/{token}): decodes
the token, 400 when the subject resolves to no user, a no-op success message
when already confirmed, otherwise flips the flag and reports success. -/
def confirmed_email_route (token : Token) (now : Nat) (db : List User) :
    Except AuthError String × List User :=
  match get_email_from_token token now with
  | Except.error e => (Except.error e, db)
  | Except.ok email =>
    match Repo.get_user_by_email email db with
    | none => (Except.error (AuthError.http 400 "Verification error"), db)
    | some user =>
      if user.confirmed then (Except.ok "Your email is already confirmed", db)
      else (Except.ok "Email confirmed", Repo.confirmed_email email db)

/-- `routes/auth.request_email` (POST /auth/request_email): reads
`user.confirmed` before any `None` check — an unknown email aborts with an
attribute error on `None`; a confirmed user gets the already-confirmed
message, otherwise the confirmation email is scheduled and the generic
message returned.  The `if user:` truthiness guard is reached only with a
present user, so it always passes. -/
def request_email (body_email : String) (db : List User) :
    Except AuthError String × List User :=
  match Repo.get_user_by_email body_email db with
  | none => (Except.error (AuthError.noneDereference "confirmed"), db)
  | some user =>
    if user.confirmed then (Except.ok "Your email is already confirmed", db)
    else (Except.ok "Check your email for confirmation.", db)

/-- `routes/auth.reset_password` (POST /auth/reset_password): 400 "Not found
user email" when no user matches; otherwise schedules the reset email and
returns the generic acknowledgment. -/
def reset_password (body_email : String) (db : List User) :
    Except AuthError String × List User :=
  match Repo.get_user_by_email body_email db with
  | none => (Except.error (AuthError.http 400 "Not found user email"), db)
  | some _ => (Except.ok "Check your email for reset password. ", db)

/-- `routes/auth.change_password` (GET /auth/change_password/{token}): decodes
the token, 400 when the subject resolves to no user, the mismatch message
(with no mutation) when the two password fields differ, otherwise hashes and
persists the new password. -/
def change_password_route (token : Token) (password confirm_password : String)
    (now : Nat) (db : List User) : Except AuthError String × List User :=
  match get_email_from_token token now with
  | Except.error e => (Except.error e, db)
  | Except.ok email =>
    match Repo.get_user_by_email email db with
    | none => (Except.error (AuthError.http 400 "Password change error"), db)
    | some user =>
      if password ≠ confirm_password then (Except.ok "Different passwords", db)
      else (Except.ok "Password change done",
        Repo.change_password user (get_password_hash password) db)

end Routes

/-! ### Demo fixtures used by the witness theorems -/

/-- An unconfirmed demo account. -/
def demoUser : User :=
  { id := 1, username := "ann", email := "a@x.com",
    password := get_password_hash "pw1", confirmed := false }

/-- A confirmed demo account. -/
def demoConfirmed : User :=
  { id := 2, username := "bob", email := "b@x.com",
    password := get_password_hash "pw2", confirmed := true }

/-- A demo users table holding both accounts. -/
def demoDb : List User := [demoUser, demoConfirmed]

/-- A demo email-verification token for the unconfirmed account. -/
def demoVerifyTok : Token := encode "a@x.com" Purpose.emailVerification 0 60

/-! ### Helper lemmas -/

/-- A row update that does not touch the email column commutes with the lookup
by email: the found row is the image of the originally found row. -/
theorem find_user_map (f : User → User) (hf : ∀ x, (f x).email = x.email)
    (e : String) (db : List User) (u : User)
    (h : Repo.get_user_by_email e db = some u) :
    Repo.get_user_by_email e (db.map f) = some (f u) := by
  induction db with
  | nil => simp [Repo.get_user_by_email] at h
  | cons x xs ih =>
    unfold Repo.get_user_by_email at h ih ⊢
    by_cases hx : x.email == e
    · rw [List.find?_cons_of_pos (p := fun (v : User) => v.email == e) _ hx] at h
      have hfx : ((f x).email == e) = true := by
        rw [hf x]; exact hx
      rw [List.map_cons, List.find?_cons_of_pos (p := fun (v : User) => v.email == e) _ hfx]
      rw [Option.some.inj h]
    · rw [List.find?_cons_of_neg (p := fun (v : User) => v.email == e) _ hx] at h
      have hfx : ¬ ((f x).email == e) = true := by
        rw [hf x]; exact hx
      rw [List.map_cons, List.find?_cons_of_neg (p := fun (v : User) => v.email == e) _ hfx]
      exact ih h

/-- `update_token` rewrites exactly the found account's stored refresh token. -/
theorem find_after_update_token (e : String) (db : List User) (u : User)
    (tok : Option Token) (h : Repo.get_user_by_email e db = some u) :
    Repo.get_user_by_email e (Repo.update_token u tok db) =
      some { u with refresh_token := tok } := by
  have step := find_user_map
    (fun x => if x.id == u.id then { x with refresh_token := tok } else x)
    (by intro x; by_cases hx : x.id == u.id <;> simp [hx]) e db u h
  simpa [Repo.update_token] using step

/-- `change_password` rewrites exactly the found account's stored hash. -/
theorem find_after_change_password (e : String) (db : List User) (u : User)
    (pw : String) (h : Repo.get_user_by_email e db = some u) :
    Repo.get_user_by_email e (Repo.change_password u pw db) =
      some { u with password := pw } := by
  have step := find_user_map
    (fun x => if x.id == u.id then { x with password := pw } else x)
    (by intro x; by_cases hx : x.id == u.id <;> simp [hx]) e db u h
  simpa [Repo.change_password] using step

/-- `Repo.confirmed_email` sets exactly the found account's confirmed flag. -/
theorem find_after_confirmed_email (e : String) (db : List User) (u : User)
    (h : Repo.get_user_by_email e db = some u) :
    Repo.get_user_by_email e (Repo.confirmed_email e db) =
      some { u with confirmed := true } := by
  have step := find_user_map
    (fun x => if x.id == u.id then { x with confirmed := true } else x)
    (by intro x; by_cases hx : x.id == u.id <;> simp [hx]) e db u h
  unfold Repo.confirmed_email
  rw [h]
  simpa using step

/-! ### Claim theorems -/

/-- C10: the refresh handler dereferences the account lookup without a null
guard — there is an input (a validly signed, unexpired, refresh-purpose token
whose subject email matches no stored account) on which execution reaches the
attribute access `user.refresh_token` on `None` instead of any specified
unauthorized outcome. -/
theorem refresh_unknown_subject_none_deref :
    ∃ (tok : Token) (now : Nat) (db : List User),
      decode tok Purpose.refresh now = Except.ok tok.subject
      ∧ Repo.get_user_by_email tok.subject db = none
      ∧ Routes.refresh_route tok now db =
          (Except.error (AuthError.noneDereference "refresh_token"), db) := by
  exact ⟨{ subject := "ghost@x.com", purpose := Purpose.refresh,
           issuedAt := 0, expiresAt := 100 }, 0, [], rfl, rfl, rfl⟩

/-- C8: contrary to the claim that POST /auth/request_email always returns a
200 message, the handler reads `user.confirmed` before any null check, so an
email matching no account aborts with an attribute access on `None`. -/
theorem request_email_unknown_email_crashes :
    Routes.request_email "ghost@x.com" demoDb =
      (Except.error (AuthError.noneDereference "confirmed"), demoDb) := rfl

/-- C4 counterexample: POST /auth/reset_password does not return the same
generic acknowledgment for every submitted email — on the demo database the
registered email gets the generic message while an unknown email gets a 400
"Not found user email" error. -/
theorem reset_password_not_generic_cex :
    (Routes.reset_password "b@x.com" demoDb).1 =
        Except.ok "Check your email for reset password. "
    ∧ (Routes.reset_password "ghost@x.com" demoDb).1 =
        Except.error (AuthError.http 400 "Not found user email") :=
  ⟨rfl, rfl⟩

/-- C4 (amended): reset_password returns the generic check-your-email
acknowledgment exactly when an account with the submitted email exists, and
raises a 400 "Not found user email" error when none does — so the response
does reveal account existence. -/
theorem reset_password_reveals_existence (e : String) (db : List User) :
    (Repo.get_user_by_email e db = none →
      Routes.reset_password e db =
        (Except.error (AuthError.http 400 "Not found user email"), db))
    ∧ ∀ u, Repo.get_user_by_email e db = some u →
      Routes.reset_password e db =
        (Except.ok "Check your email for reset password. ", db) := by
  constructor
  · intro h
    simp [Routes.reset_password, h]
  · intro u h
    simp [Routes.reset_password, h]

/-- C4 witness: the amended behaviour at concrete inputs. -/
theorem reset_password_reveals_existence_witness :
    Routes.reset_password "ghost@x.com" demoDb =
      (Except.error (AuthError.http 400 "Not found user email"), demoDb) :=
  (reset_password_reveals_existence "ghost@x.com" demoDb).1 rfl

/-- C5: signup fails with 409 Conflict (creating nothing) when the email is
registered; otherwise it persists a new account storing the hash of the
submitted password with `confirmed = false` and returns it (201), and a
second signup with the same email then gets the 409. -/
theorem signup_conflict_or_create (body : UserSchema) (db : List User) :
    ((∃ u, Repo.get_user_by_email body.email db = some u) →
      Routes.signup body db =
        (Except.error (AuthError.http 409 "Account already exists"), db))
    ∧ (Repo.get_user_by_email body.email db = none →
      ∃ u, Routes.signup body db = (Except.ok u, db ++ [u])
        ∧ u.email = body.email
        ∧ u.password = get_password_hash body.password
        ∧ u.confirmed = false
        ∧ (Routes.signup body (Routes.signup body db).2).1 =
            Except.error (AuthError.http 409 "Account already exists")) := by
  constructor
  · rintro ⟨u, hu⟩
    simp [Routes.signup, hu]
  · intro hnone
    refine ⟨(Repo.create_user { body with password := get_password_hash body.password } db).1,
      ?_, rfl, rfl, rfl, ?_⟩
    · simp [Routes.signup, hnone, Repo.create_user]
    · have hfind2 : Repo.get_user_by_email body.email (Routes.signup body db).2 =
          some ((Repo.create_user { body with password := get_password_hash body.password } db).1) := by
        simp only [Routes.signup, hnone, Repo.create_user]
        unfold Repo.get_user_by_email at hnone ⊢
        rw [List.find?_append, hnone, Option.none_or]
        simp
      have gen : ∀ (db2 : List User) (u : User),
          Repo.get_user_by_email body.email db2 = some u →
          (Routes.signup body db2).1 =
            Except.error (AuthError.http 409 "Account already exists") := by
        intro db2 u hu
        simp [Routes.signup, hu]
      exact gen _ _ hfind2

/-- C5 witness: on a database where a@x.com is taken, signup for a fresh email
creates the hashed, unconfirmed account and a replay gets the 409. -/
theorem signup_conflict_or_create_witness :
    ∃ u, Routes.signup { username := "carol", email := "new@x.com", password := "s3cret" } demoDb
        = (Except.ok u, demoDb ++ [u])
      ∧ u.email = "new@x.com"
      ∧ u.password = get_password_hash "s3cret"
      ∧ u.confirmed = false
      ∧ (Routes.signup { username := "carol", email := "new@x.com", password := "s3cret" }
          (Routes.signup { username := "carol", email := "new@x.com", password := "s3cret" } demoDb).2).1 =
          Except.error (AuthError.http 409 "Account already exists") :=
  (signup_conflict_or_create
    { username := "carol", email := "new@x.com", password := "s3cret" } demoDb).2 rfl

/-- C3: login succeeds only when the account exists, is confirmed and the
password verifies, in which case it returns an access+refresh pair and
persists the refresh token; whenever any precondition fails it returns a 401
unauthorized error (in particular for an unconfirmed account with a correct
password) and leaves the database unchanged. -/
theorem login_checks_preconditions (username password : String) (now : Nat)
    (db : List User) :
    (∀ pair db2, Routes.login username password now db = (Except.ok pair, db2) →
      ∃ u, Repo.get_user_by_email username db = some u
        ∧ u.confirmed = true
        ∧ verify_password password u.password = true
        ∧ pair = { access_token := create_access_token u.email now,
                   refresh_token := create_refresh_token u.email now }
        ∧ db2 = Repo.update_token u (some pair.refresh_token) db
        ∧ Repo.get_user_by_email username db2 =
            some { u with refresh_token := some pair.refresh_token })
    ∧ ((Repo.get_user_by_email username db = none
        ∨ ∃ u, Repo.get_user_by_email username db = some u
            ∧ (u.confirmed = false ∨ verify_password password u.password = false)) →
      ∃ detail, Routes.login username password now db =
        (Except.error (AuthError.http 401 detail), db)) := by
  constructor
  · intro pair db2 h
    cases hfind : Repo.get_user_by_email username db with
    | none => simp [Routes.login, hfind] at h
    | some u =>
      by_cases hc : u.confirmed = true
      · by_cases hv : verify_password password u.password = true
        · have h2 : Routes.login username password now db =
              (Except.ok { access_token := create_access_token u.email now,
                           refresh_token := create_refresh_token u.email now },
               Repo.update_token u (some (create_refresh_token u.email now)) db) := by
            simp [Routes.login, hfind, hc, hv]
          rw [h2] at h
          have hpair : ({ access_token := create_access_token u.email now,
                          refresh_token := create_refresh_token u.email now } : TokenPair) = pair :=
            Except.ok.inj (congrArg Prod.fst h)
          have hdb : Repo.update_token u (some (create_refresh_token u.email now)) db = db2 :=
            congrArg Prod.snd h
          refine ⟨u, rfl, hc, hv, hpair.symm, ?_, ?_⟩
          · rw [← hdb, ← hpair]
          · rw [← hdb, ← hpair]
            exact find_after_update_token username db u _ hfind
        · simp [Routes.login, hfind, hc, hv] at h
      · simp [Routes.login, hfind, hc] at h
  · rintro (hnone | ⟨u, hu, hbad⟩)
    · exact ⟨"No such user", by simp [Routes.login, hnone]⟩
    · rcases hbad with hc | hv
      · exact ⟨"Email not confirmed", by simp [Routes.login, hu, hc]⟩
      · by_cases hc2 : u.confirmed
        · exact ⟨"Incorrect credentials", by simp [Routes.login, hu, hc2, hv]⟩
        · exact ⟨"Email not confirmed", by simp [Routes.login, hu, hc2]⟩

/-- C3 witness: the unconfirmed demo account with its correct password is
rejected with a 401. -/
theorem login_checks_preconditions_witness :
    ∃ detail, Routes.login "a@x.com" "pw1" 0 demoDb =
      (Except.error (AuthError.http 401 detail), demoDb) :=
  (login_checks_preconditions "a@x.com" "pw1" 0 demoDb).2
    (Or.inr ⟨demoUser, rfl, Or.inl rfl⟩)

/-- C7: for an account resolved from a valid token, change_password returns
the mismatch outcome with the stored hash untouched when the two password
fields differ, and otherwise hashes the new password, persists it and
returns the changed outcome. -/
theorem change_password_mismatch_or_update (tok : Token) (pw cpw : String)
    (now : Nat) (e : String) (u : User) (db : List User)
    (hdec : get_email_from_token tok now = Except.ok e)
    (hfind : Repo.get_user_by_email e db = some u) :
    (pw ≠ cpw →
      Routes.change_password_route tok pw cpw now db =
        (Except.ok "Different passwords", db))
    ∧ (pw = cpw →
      Routes.change_password_route tok pw cpw now db =
        (Except.ok "Password change done",
          Repo.change_password u (get_password_hash pw) db)
      ∧ Repo.get_user_by_email e (Repo.change_password u (get_password_hash pw) db) =
          some { u with password := get_password_hash pw }) := by
  constructor
  · intro hne
    simp [Routes.change_password_route, hdec, hfind, hne]
  · intro heq
    refine ⟨?_, find_after_change_password e db u _ hfind⟩
    simp [Routes.change_password_route, hdec, hfind, heq]

/-- C7 witness: a mismatching pair of password fields on the demo database
yields the mismatch message and leaves the database unchanged. -/
theorem change_password_mismatch_or_update_witness :
    Routes.change_password_route demoVerifyTok "a" "b" 1 demoDb =
      (Except.ok "Different passwords", demoDb) :=
  (change_password_mismatch_or_update demoVerifyTok "a" "b" 1 "a@x.com" demoUser demoDb
    rfl rfl).1 (by decide)

/-- C6: email confirmation is idempotent — with a valid token whose subject
resolves to an account, the first call succeeds and leaves the account
confirmed, and a second call with the same token succeeds as a no-op (same
database, already-confirmed message). -/
theorem confirm_email_idempotent (tok : Token) (t1 t2 : Nat) (e : String)
    (u : User) (db : List User)
    (hdec1 : get_email_from_token tok t1 = Except.ok e)
    (hdec2 : get_email_from_token tok t2 = Except.ok e)
    (hfind : Repo.get_user_by_email e db = some u) :
    ∃ msg1 db2, Routes.confirmed_email_route tok t1 db = (Except.ok msg1, db2)
      ∧ Repo.get_user_by_email e db2 = some { u with confirmed := true }
      ∧ Routes.confirmed_email_route tok t2 db2 =
          (Except.ok "Your email is already confirmed", db2) := by
  by_cases hc : u.confirmed = true
  · refine ⟨"Your email is already confirmed", db, ?_, ?_, ?_⟩
    · simp [Routes.confirmed_email_route, hdec1, hfind, hc]
    · rw [hfind]
      congr 1
      cases u
      simp_all
    · simp [Routes.confirmed_email_route, hdec2, hfind, hc]
  · have hfind2 : Repo.get_user_by_email e (Repo.confirmed_email e db) =
        some { u with confirmed := true } :=
      find_after_confirmed_email e db u hfind
    refine ⟨"Email confirmed", Repo.confirmed_email e db, ?_, hfind2, ?_⟩
    · simp [Routes.confirmed_email_route, hdec1, hfind, hc]
    · simp [Routes.confirmed_email_route, hdec2, hfind2]

/-- C6 witness: confirming the unconfirmed demo account twice with its
verification token succeeds both times. -/
theorem confirm_email_idempotent_witness :
    ∃ msg1 db2, Routes.confirmed_email_route demoVerifyTok 1 demoDb = (Except.ok msg1, db2)
      ∧ Repo.get_user_by_email "a@x.com" db2 = some { demoUser with confirmed := true }
      ∧ Routes.confirmed_email_route demoVerifyTok 2 db2 =
          (Except.ok "Your email is already confirmed", db2) :=
  confirm_email_idempotent demoVerifyTok 1 2 "a@x.com" demoUser demoDb rfl rfl rfl

/-- C2: when a presented refresh-purpose token decodes to an existing
account's email but differs from that account's stored refresh token, the
refresh handler clears the stored token (sets it absent) and fails with a
401 unauthorized error, returning no token pair. -/
theorem refresh_mismatch_revokes_and_rejects (rt : Token) (now : Nat) (u : User)
    (db : List User)
    (hpur : rt.purpose = Purpose.refresh)
    (hexp : now < rt.expiresAt)
    (hfind : Repo.get_user_by_email rt.subject db = some u)
    (hne : u.refresh_token ≠ some rt) :
    Routes.refresh_route rt now db =
      (Except.error (AuthError.http 401 "Invalid refresh token"),
        Repo.update_token u none db)
    ∧ Repo.get_user_by_email rt.subject (Repo.update_token u none db) =
        some { u with refresh_token := none } := by
  have hdec : decode_refresh_token rt now = Except.ok rt.subject := by
    simp [decode_refresh_token, decode, hpur, Nat.not_le.2 hexp]
  refine ⟨?_, find_after_update_token rt.subject db u none hfind⟩
  simp [Routes.refresh_route, hdec, hfind, hne]

/-- C2 witness: a refresh token for the confirmed demo account (which stores
no refresh token) is rejected with 401 and the stored value is cleared. -/
theorem refresh_mismatch_revokes_and_rejects_witness :
    Routes.refresh_route (encode "b@x.com" Purpose.refresh 0 100) 1 demoDb =
      (Except.error (AuthError.http 401 "Invalid refresh token"),
        Repo.update_token demoConfirmed none demoDb)
    ∧ Repo.get_user_by_email "b@x.com" (Repo.update_token demoConfirmed none demoDb) =
        some { demoConfirmed with refresh_token := none } :=
  refresh_mismatch_revokes_and_rejects (encode "b@x.com" Purpose.refresh 0 100) 1
    demoConfirmed demoDb rfl (by decide) rfl (by decide)

/-- C1: refresh-token rotation is single-use — when the presented token
equals the account's stored refresh token and is minted at a different
instant than the refresh call, the refresh succeeds, stores a different
fresh refresh token, and a subsequent refresh with the old token (still
unexpired and refresh-purposed) fails with a 401 unauthorized error. -/
theorem refresh_rotation_single_use (rt1 : Token) (t1 t2 : Nat) (u : User)
    (db : List User)
    (hpur : rt1.purpose = Purpose.refresh)
    (hexp1 : t1 < rt1.expiresAt)
    (hexp2 : t2 < rt1.expiresAt)
    (hfind : Repo.get_user_by_email rt1.subject db = some u)
    (hstored : u.refresh_token = some rt1)
    (hfresh : rt1.issuedAt ≠ t1) :
    ∃ rt2 db2,
      Routes.refresh_route rt1 t1 db =
        (Except.ok { access_token := create_access_token rt1.subject t1,
                     refresh_token := rt2 }, db2)
      ∧ rt2 ≠ rt1
      ∧ Repo.get_user_by_email rt1.subject db2 =
          some { u with refresh_token := some rt2 }
      ∧ (Routes.refresh_route rt1 t2 db2).1 =
          Except.error (AuthError.http 401 "Invalid refresh token") := by
  have hdec1 : decode_refresh_token rt1 t1 = Except.ok rt1.subject := by
    simp [decode_refresh_token, decode, hpur, Nat.not_le.2 hexp1]
  have hdec2 : decode_refresh_token rt1 t2 = Except.ok rt1.subject := by
    simp [decode_refresh_token, decode, hpur, Nat.not_le.2 hexp2]
  set rt2 := create_refresh_token rt1.subject t1 with hrt2
  have hne : rt2 ≠ rt1 := by
    intro hcontra
    apply hfresh
    rw [← hcontra]
    rfl
  set db2 := Repo.update_token u (some rt2) db with hdb2
  have hfind2 : Repo.get_user_by_email rt1.subject db2 =
      some { u with refresh_token := some rt2 } :=
    find_after_update_token rt1.subject db u (some rt2) hfind
  refine ⟨rt2, db2, ?_, hne, hfind2, ?_⟩
  · simp [Routes.refresh_route, hdec1, hfind, hstored, hdb2]
  · have hmis : ({ u with refresh_token := some rt2 } : User).refresh_token ≠ some rt1 := by
      simp [hne]
    simp [Routes.refresh_route, hdec2, hfind2, hmis]

/-- C1 witness: rotation on a demo database storing a live refresh token —
the first refresh succeeds with a new token, the replayed old token is then
rejected with 401. -/
theorem refresh_rotation_single_use_witness :
    ∃ rt2 db2,
      Routes.refresh_route (encode "b@x.com" Purpose.refresh 0 10080) 5
          [{ demoConfirmed with refresh_token := some (encode "b@x.com" Purpose.refresh 0 10080) }] =
        (Except.ok { access_token := create_access_token "b@x.com" 5,
                     refresh_token := rt2 }, db2)
      ∧ rt2 ≠ encode "b@x.com" Purpose.refresh 0 10080
      ∧ Repo.get_user_by_email "b@x.com" db2 =
          some { { demoConfirmed with refresh_token := some (encode "b@x.com" Purpose.refresh 0 10080) }
                  with refresh_token := some rt2 }
      ∧ (Routes.refresh_route (encode "b@x.com" Purpose.refresh 0 10080) 6 db2).1 =
          Except.error (AuthError.http 401 "Invalid refresh token") :=
  refresh_rotation_single_use (encode "b@x.com" Purpose.refresh 0 10080) 5 6
    { demoConfirmed with refresh_token := some (encode "b@x.com" Purpose.refresh 0 10080) }
    [{ demoConfirmed with refresh_token := some (encode "b@x.com" Purpose.refresh 0 10080) }]
    rfl (by decide) (by decide) rfl rfl (by decide)

/-- A demo contact owned by the account with id 1. -/
def demoContact : Contact :=
  { id := 1, first_name := "Joe", last_name := "Doe", email := "joe@x.com",
    phone_number := "+380000000001", birthday := 100, user_id := 1 }

/-- A demo contacts table holding that one contact. -/
def demoContacts : List Contact := [demoContact]

/-- A demo contact-update request body. -/
def demoContactBody : ContactSchema :=
  { first_name := "New", last_name := "Name", email := "n@x.com",
    phone_number := "+380000000002", birthday := 200 }

/-- With primary-key-unique ids, the lookup keyed by the id of a contact owned
by a different account finds nothing. -/
theorem find_foreign_contact_none (db : List Contact) (c : Contact) (u : User)
    (hmem : c ∈ db) (hid : (db.map Contact.id).Nodup) (howner : c.user_id ≠ u.id) :
    db.find? (fun x => x.id == c.id && x.user_id == u.id) = none := by
  rw [List.find?_eq_none]
  intro x hx
  simp only [Bool.and_eq_true, beq_iff_eq, not_and]
  intro hxid hxu
  have hxc : x = c := List.inj_on_of_nodup_map hid hx hmem (by rw [hxid])
  exact howner (hxc ▸ hxu)

/-- C9: every contact repository operation filters by the requesting account —
for a contact owned by a different account (ids being primary-key unique),
get_contact returns `None`, update_contact and delete_contact return `None`
leaving the table unchanged, and the contact appears in no listing or search
result of the requesting account. -/
theorem contact_isolation (u : User) (c : Contact) (db : List Contact)
    (body : ContactSchema) (limit offset : Nat) (fn ln em : String)
    (hmem : c ∈ db) (hid : (db.map Contact.id).Nodup) (howner : c.user_id ≠ u.id) :
    Repo.get_contact c.id db u = none
    ∧ Repo.update_contact body c.id db u = (none, db)
    ∧ Repo.delete_contact c.id db u = (none, db)
    ∧ c ∉ Repo.get_contacts limit offset db u
    ∧ ∀ res, Repo.search_contacts fn ln em db u = some res → c ∉ res := by
  have hfind := find_foreign_contact_none db c u hmem hid howner
  refine ⟨hfind, ?_, ?_, ?_, ?_⟩
  · simp [Repo.update_contact, hfind]
  · simp [Repo.delete_contact, hfind]
  · intro hc
    have h1 : c ∈ db.filter (fun x => x.user_id == u.id) :=
      List.drop_subset _ _ (List.take_subset _ _ hc)
    have h2 := List.of_mem_filter h1
    simp only [beq_iff_eq] at h2
    exact howner h2
  · intro res hres hcres
    have hcu : ∀ (p : Contact → Bool), (∀ x, p x = true → (x.user_id == u.id) = true) →
        db.filter p = res → False := by
      intro p hp hres2
      rw [← hres2] at hcres
      have h3 := hp c (List.of_mem_filter hcres)
      simp only [beq_iff_eq] at h3
      exact howner h3
    unfold Repo.search_contacts at hres
    by_cases he : em = ""
    · by_cases hl : ln = ""
      · by_cases hf : fn = ""
        · simp [he, hl, hf] at hres
        · simp only [he, hl, hf, ne_eq, not_false_eq_true, if_true, if_pos,
            not_true_eq_false, if_false, Option.some.injEq] at hres
          exact hcu _ (fun x hx => by simp only [Bool.and_eq_true] at hx; exact hx.2) hres
      · simp only [he, hl, ne_eq, not_false_eq_true, if_true, if_pos,
          not_true_eq_false, if_false, Option.some.injEq] at hres
        exact hcu _ (fun x hx => by simp only [Bool.and_eq_true] at hx; exact hx.2) hres
    · simp only [he, ne_eq, not_false_eq_true, if_true, if_pos,
        Option.some.injEq] at hres
      exact hcu _ (fun x hx => by simp only [Bool.and_eq_true] at hx; exact hx.2) hres

/-- C9 witness: the demo contact of account 1 is invisible and untouchable to
the account with id 2. -/
theorem contact_isolation_witness :
    Repo.get_contact 1 demoContacts demoConfirmed = none
    ∧ Repo.update_contact demoContactBody 1 demoContacts demoConfirmed = (none, demoContacts)
    ∧ Repo.delete_contact 1 demoContacts demoConfirmed = (none, demoContacts)
    ∧ demoContact ∉ Repo.get_contacts 10 0 demoContacts demoConfirmed :=
  have h := contact_isolation demoConfirmed demoContact demoContacts demoContactBody
    10 0 "j" "" "" (by decide) (by decide) (by decide)
  ⟨h.1, h.2.1, h.2.2.1, h.2.2.2.1⟩

end RestApi
